import Mathlib

/-!
Verification development for the Jeonbuk tourist congestion/parking
difficulty service (`app.py`).

The core pipeline of the service is embedded shallowly:

* machine floats become exact rationals (`ℚ`), with the logistic transform
  carried out over `ℝ` because of `Real.exp`;
* the impure reads of the wall clock (`datetime.now(KST)`) are made explicit
  parameters `hour`, `weekday`, `minute`;
* Python's seeded `random` module is abstracted by two oracles: `hashFn`,
  the string hash used to build the seed, and `noise`, which maps a seed to
  the (deterministic, once seeded) pair of uniform draws that
  `get_realtime_features` performs after `random.seed(...)`;
* Python's built-in `round` (round half to even) is modelled by `pyRound`.
-/

set_option maxHeartbeats 1000000

/-- One entry of the `AREAS` dictionary of `app.py`. -/
structure Area where
  id : String
  name : String
  name_kr : String
  region : String
  category : String
  base_popularity : ℚ
  emoji : String
deriving DecidableEq, Repr

/-- The `"jeonju-hanok"` entry, also the fallback entry of
`AREAS.get(area_id, AREAS["jeonju-hanok"])`. -/
def jeonjuHanok : Area :=
  { id := "jeonju-hanok", name := "Jeonju Hanok Village", name_kr := "전주 한옥마을",
    region := "전주시", category := "전통마을", base_popularity := 0.85, emoji := "🏘️" }

/-- The `AREAS` dictionary of `app.py`, in insertion order. -/
def AREAS : List Area :=
  [ jeonjuHanok,
    { id := "jeonju-nambu", name := "Jeonju Nambu Market", name_kr := "남부시장",
      region := "전주시", category := "전통시장", base_popularity := 0.7, emoji := "🏪" },
    { id := "jeonju-gaeksa", name := "Jeonju Gaeksa", name_kr := "전주객사",
      region := "전주시", category := "문화유적", base_popularity := 0.5, emoji := "🏛️" },
    { id := "jeonju-omokdae", name := "Omokdae Pavilion", name_kr := "오목대",
      region := "전주시", category := "전망대", base_popularity := 0.6, emoji := "🏯" },
    { id := "jeonju-gyeonggijeon", name := "Gyeonggijeon Shrine", name_kr := "경기전",
      region := "전주시", category := "문화유적", base_popularity := 0.75, emoji := "⛩️" },
    { id := "jeonju-pungnammun", name := "Pungnammun Gate", name_kr := "풍남문",
      region := "전주시", category := "문화유적", base_popularity := 0.55, emoji := "🚪" },
    { id := "jeonju-deokjin", name := "Deokjin Park", name_kr := "덕진공원",
      region := "전주시", category := "공원", base_popularity := 0.6, emoji := "🌳" },
    { id := "jeonbuk-maisan", name := "Maisan Mountain", name_kr := "마이산",
      region := "진안군", category := "자연경관", base_popularity := 0.7, emoji := "⛰️" },
    { id := "jeonbuk-naejangsan", name := "Naejangsan National Park", name_kr := "내장산",
      region := "정읍시", category := "국립공원", base_popularity := 0.75, emoji := "🍁" },
    { id := "jeonbuk-byeonsan", name := "Byeonsanbando National Park", name_kr := "변산반도",
      region := "부안군", category := "국립공원", base_popularity := 0.65, emoji := "🏖️" },
    { id := "jeonbuk-gunsan", name := "Gunsan Modern History Museum", name_kr := "군산 근대역사박물관",
      region := "군산시", category := "박물관", base_popularity := 0.6, emoji := "🏛️" },
    { id := "jeonbuk-imsil", name := "Imsil Cheese Village", name_kr := "임실치즈마을",
      region := "임실군", category := "체험마을", base_popularity := 0.55, emoji := "🧀" },
    { id := "jeonbuk-gochang", name := "Gochang Dolmen Site", name_kr := "고창 고인돌",
      region := "고창군", category := "세계유산", base_popularity := 0.5, emoji := "🪨" },
    { id := "jeonbuk-sunchang", name := "Sunchang Gochujang Village", name_kr := "순창 고추장마을",
      region := "순창군", category := "체험마을", base_popularity := 0.45, emoji := "🌶️" } ]

/-- Dictionary lookup `AREAS.get(area_id)` (returning `None` when absent). -/
def lookupArea (area_id : String) : Option Area :=
  AREAS.find? (fun a => a.id == area_id)

/-- Core of `get_realtime_features` in `app.py`, with the wall-clock reads
(`hour`, `weekday`, Monday = 0) and the two seeded uniform draws
(`n1 ∈ [-0.1, 0.1]`, `n2 ∈ [0, 0.15]`) made explicit parameters.
The area lookup and seeding are in `features_of_area`. -/
def get_realtime_features (hour weekday : ℕ) (popularity n1 n2 : ℚ) : ℚ × ℚ :=
  let base_traffic : ℚ :=
    if 10 ≤ hour ∧ hour < 12 then 0.4
    else if 12 ≤ hour ∧ hour < 14 then 0.6
    else if 14 ≤ hour ∧ hour < 18 then 0.7
    else if 18 ≤ hour ∧ hour < 20 then 0.5
    else 0.2
  let base_traffic := base_traffic * popularity
  let base_traffic := if 5 ≤ weekday then min 1.0 (base_traffic * 1.3) else base_traffic
  let traffic_index := max 0.0 (min 1.0 (base_traffic + n1))
  let parking_pressure := max 0.0 (min 1.0 (traffic_index * 0.9 + n2))
  (traffic_index, parking_pressure)

/-- The string `area_id + str(hour) + str(now.minute // 5)` hashed to seed
the random module in `get_realtime_features`. -/
def seed_string (area_id : String) (hour minute : ℕ) : String :=
  area_id ++ toString hour ++ toString (minute / 5)

/-- Full `get_realtime_features(area_id)`: dictionary lookup with fallback to
`AREAS["jeonju-hanok"]`, then `random.seed(hash(area_id + str(hour) +
str(minute // 5)))`, then the two uniform draws.  `hashFn` abstracts Python's
`hash`; `noise` abstracts the pair of draws the seeded generator yields. -/
def features_of_area (hashFn : String → ℤ) (noise : ℤ → ℚ × ℚ)
    (area_id : String) (hour weekday minute : ℕ) : ℚ × ℚ :=
  let area_info := (lookupArea area_id).getD jeonjuHanok
  let s := hashFn (seed_string area_id hour minute)
  get_realtime_features hour weekday area_info.base_popularity (noise s).1 (noise s).2

/-- `forecast_30min` in `app.py`, with the wall-clock hour and the uniform
draw in `[-0.05, 0.05]` made explicit parameters. -/
def forecast_30min (traffic_index : ℚ) (hour : ℕ) (noise : ℚ) : ℚ :=
  let trend : ℚ :=
    if 11 ≤ hour ∧ hour < 13 then 0.1
    else if 14 ≤ hour ∧ hour < 17 then 0.05
    else if 17 ≤ hour ∧ hour < 19 then -0.1
    else 0.0
  let forecast := traffic_index + trend + noise
  max 0.0 (min 1.0 forecast)

/-- The caller-side parking forecast of `get_status` (line
`parking_pressure_30m = parking_pressure_now * 0.9 + random.uniform(0, 0.1)`),
with the uniform draw in `[0, 0.1]` an explicit parameter. -/
def parking_pressure_30m (parking_pressure_now noise : ℚ) : ℚ :=
  parking_pressure_now * 0.9 + noise

/-- The logistic (sigmoid) transform `1 / (1 + math.exp(-x))` used by
`score_difficulty`. -/
noncomputable def sigmoid (x : ℝ) : ℝ :=
  1 / (1 + Real.exp (-x))

open Classical in
/-- Python 3's built-in `round` on reals: round half to even.  Mathlib's
`round` is round half up (`round x = ⌊x + 1/2⌋`), so exactly at a tie whose
half-up result is odd the result is one less. -/
noncomputable def pyRound (x : ℝ) : ℤ :=
  if (round x : ℝ) - x = 1 / 2 ∧ Odd (round x) then round x - 1 else round x

/-- `score_difficulty` in `app.py`: weighted combination, sigmoid transform,
`int(round(sigmoid_value * 100))`. -/
noncomputable def score_difficulty (traffic_index parking_pressure : ℚ) : ℤ :=
  let combined := traffic_index * 0.6 + parking_pressure * 0.4
  let sigmoid_input : ℝ := ((combined : ℝ) - 0.5) * 8
  let sigmoid_value := sigmoid sigmoid_input
  pyRound (sigmoid_value * 100)

/-- `level_from_score` in `app.py`. -/
def level_from_score (score : ℤ) : String :=
  if score < 30 then "EASY"
  else if score < 55 then "MODERATE"
  else if score < 75 then "HARD"
  else "VERY_HARD"

/-- `message_from_level` in `app.py`: fixed template per level, generic
fallback for an unknown level. -/
def message_from_level (level area_name : String) (is_forecast : Bool) : String :=
  let pfx := if is_forecast then "30분 뒤 " else "현재 "
  if level = "EASY" then
    pfx ++ area_name ++ "은(는) 여유롭습니다. 방문하기 좋은 시간입니다! 🟢"
  else if level = "MODERATE" then
    pfx ++ area_name ++ "은(는) 적당히 붐빕니다. 주차 공간을 미리 확인하세요. 🟡"
  else if level = "HARD" then
    pfx ++ area_name ++ "이(가) 혼잡합니다. 대중교통 이용을 권장합니다. 🟠"
  else if level = "VERY_HARD" then
    pfx ++ area_name ++ "이(가) 매우 혼잡합니다. 방문 시간 조정을 권장합니다. 🔴"
  else "정보를 확인할 수 없습니다."

/-- The success payload of `GET /api/status`. -/
structure StatusOk where
  area_id : String
  area : String
  area_kr : String
  region : String
  category : String
  emoji : String
  now_kst : String
  traffic_index_now : ℚ
  traffic_index_forecast_30m : ℚ
  parking_pressure_now : ℚ
  difficulty_now_0_100 : ℤ
  difficulty_30m_0_100 : ℤ
  level_now : String
  level_30m : String
  message : String
  message_30m : String
  notes : String

/-- A `GET /api/status` response body: either the in-band error dictionary
(the route still answers HTTP 200) or the full assessment payload. -/
inductive StatusResponse where
  | error (error : String) (available_areas : List String)
  | ok (payload : StatusOk)

/-- Python's `round(x, 3)` on a rational (round half to even at the third
decimal), used for the three rounded feature fields of the response. -/
def round3 (x : ℚ) : ℚ :=
  let r := round (x * 1000)
  (if (r : ℚ) - x * 1000 = 1 / 2 ∧ Odd r then r - 1 else r : ℤ) / 1000

/-- The `get_status` route handler of `app.py`.  Wall-clock reads are the
explicit parameters `hour weekday minute now_kst`; `fnoise` is the uniform
draw of `forecast_30min` and `pnoise` the one of the parking estimate. -/
noncomputable def get_status (hashFn : String → ℤ) (noise : ℤ → ℚ × ℚ)
    (fnoise pnoise : ℚ) (hour weekday minute : ℕ) (now_kst : String)
    (area : String) : StatusResponse :=
  match lookupArea area with
  | none =>
      .error "지역을 찾을 수 없습니다." (AREAS.map (fun a => a.id))
  | some area_info =>
      let f := features_of_area hashFn noise area hour weekday minute
      let traffic_index_now := f.1
      let parking_pressure_now := f.2
      let traffic_index_30m := forecast_30min traffic_index_now hour fnoise
      let parking_30m := parking_pressure_30m parking_pressure_now pnoise
      let difficulty_now := score_difficulty traffic_index_now parking_pressure_now
      let difficulty_30m := score_difficulty traffic_index_30m parking_30m
      let level_now := level_from_score difficulty_now
      let level_30m := level_from_score difficulty_30m
      .ok
        { area_id := area_info.id
          area := area_info.name
          area_kr := area_info.name_kr
          region := area_info.region
          category := area_info.category
          emoji := area_info.emoji
          now_kst := now_kst
          traffic_index_now := round3 traffic_index_now
          traffic_index_forecast_30m := round3 traffic_index_30m
          parking_pressure_now := round3 parking_pressure_now
          difficulty_now_0_100 := difficulty_now
          difficulty_30m_0_100 := difficulty_30m
          level_now := level_now
          level_30m := level_30m
          message := message_from_level level_now area_info.name_kr false
          message_30m := message_from_level level_30m area_info.name_kr true
          notes := "현재 더미(룰 기반) 데이터로 동작 중입니다. 추후 실시간 교통/주차 API 연동 예정." }

/-- Reference definition of the feature pair following the words of the
specification (§4.2 of the spec): the hour step function times
`base_popularity`, weekend boost `× 1.3` clamped to at most 1 when the
weekday is Saturday (5) or Sunday (6), then clamped noisy traffic and
derived parking pressure. -/
def featuresSpec (hour weekday : ℕ) (base_popularity n1 n2 : ℚ) : ℚ × ℚ :=
  let step : ℚ :=
    if 10 ≤ hour ∧ hour < 12 then 0.4
    else if 12 ≤ hour ∧ hour < 14 then 0.6
    else if 14 ≤ hour ∧ hour < 18 then 0.7
    else if 18 ≤ hour ∧ hour < 20 then 0.5
    else 0.2
  let B := step * base_popularity
  let B := if weekday = 5 ∨ weekday = 6 then min 1.0 (B * 1.3) else B
  let traffic_index := max 0.0 (min 1.0 (B + n1))
  let parking_pressure := max 0.0 (min 1.0 (traffic_index * 0.9 + n2))
  (traffic_index, parking_pressure)

/-- Reference definition of the forecast trend table following the words of
the specification (§4.3 of the spec). -/
def trendSpec (hour : ℕ) : ℚ :=
  if 11 ≤ hour ∧ hour < 13 then 0.1
  else if 14 ≤ hour ∧ hour < 17 then 0.05
  else if 17 ≤ hour ∧ hour < 19 then -0.1
  else 0.0

/-! Helper lemmas about `pyRound` (Python round-half-to-even). -/

/-- Round-half-to-even never exceeds round-half-up. -/
lemma pyRound_le_round (x : ℝ) : pyRound x ≤ round x := by
  unfold pyRound
  split_ifs <;> omega

/-- Round-half-to-even is at most one below round-half-up. -/
lemma round_sub_one_le_pyRound (x : ℝ) : round x - 1 ≤ pyRound x := by
  unfold pyRound
  split_ifs <;> omega

/-- The ceiling of `x - 1/2` never exceeds the floor of `x + 1/2`. -/
lemma ceil_sub_half_le_floor_add_half (x : ℝ) : ⌈x - 1 / 2⌉ ≤ ⌊x + 1 / 2⌋ := by
  rw [Int.ceil_le]
  have h := Int.sub_one_lt_floor (x + 1 / 2)
  linarith

/-- Lower bound for `pyRound`: it is at least the ceiling of `x - 1/2`. -/
lemma ceil_sub_half_le_pyRound (x : ℝ) : ⌈x - 1 / 2⌉ ≤ pyRound x := by
  unfold pyRound
  split_ifs with h
  · have hx : x - 1 / 2 = ((round x - 1 : ℤ) : ℝ) := by
      push_cast
      linarith [h.1]
    rw [hx, Int.ceil_intCast]
  · rw [round_eq]
    exact ceil_sub_half_le_floor_add_half x

/-- If `(n : ℝ) ≤ x` then `n ≤ pyRound x`. -/
lemma int_le_pyRound {n : ℤ} {x : ℝ} (h : (n : ℝ) ≤ x) : n ≤ pyRound x := by
  refine le_trans ?_ (ceil_sub_half_le_pyRound x)
  have : (n - 1 : ℤ) < ⌈x - 1 / 2⌉ := by
    rw [Int.lt_ceil]
    push_cast
    linarith
  omega

/-- If `x ≤ (n : ℝ)` then `pyRound x ≤ n`. -/
lemma pyRound_le_int {n : ℤ} {x : ℝ} (h : x ≤ (n : ℝ)) : pyRound x ≤ n := by
  refine le_trans (pyRound_le_round x) ?_
  rw [round_eq]
  have : ⌊x + 1 / 2⌋ < n + 1 := by
    rw [Int.floor_lt]
    push_cast
    linarith
  omega

/-- `pyRound` fixes the integers. -/
lemma pyRound_intCast (n : ℤ) : pyRound ((n : ℝ)) = n :=
  le_antisymm (pyRound_le_int le_rfl) (int_le_pyRound le_rfl)

/-- `pyRound` is monotone. -/
lemma pyRound_mono {x y : ℝ} (h : x ≤ y) : pyRound x ≤ pyRound y := by
  have hr : round x ≤ round y := by
    rw [round_eq, round_eq]
    exact Int.floor_mono (by linarith)
  unfold pyRound
  split_ifs with hx hy hy
  · omega
  · omega
  · -- `x` is not an odd-result tie but `y` is: show `round x < round y`.
    rcases lt_or_eq_of_le hr with hlt | heq
    · omega
    · exfalso
      apply hx
      have hy1 : (round y : ℝ) - y = 1 / 2 := hy.1
      have hfx : ((round x : ℤ) : ℝ) ≤ x + 1 / 2 := by
        rw [round_eq]
        exact_mod_cast Int.floor_le (x + 1 / 2)
      have hcast : ((round x : ℤ) : ℝ) = ((round y : ℤ) : ℝ) := by rw [heq]
      have hxy : x = y := by linarith
      subst hxy
      exact hy
  · omega

/-! Helper lemmas about the sigmoid. -/

lemma sigmoid_pos (x : ℝ) : 0 < sigmoid x := by
  unfold sigmoid
  positivity

lemma sigmoid_lt_one (x : ℝ) : sigmoid x < 1 := by
  unfold sigmoid
  rw [div_lt_one (by positivity)]
  linarith [Real.exp_pos (-x)]

lemma sigmoid_mono {x y : ℝ} (h : x ≤ y) : sigmoid x ≤ sigmoid y := by
  unfold sigmoid
  have hexp : Real.exp (-y) ≤ Real.exp (-x) := Real.exp_le_exp.mpr (by linarith)
  exact one_div_le_one_div_of_le (by positivity) (by linarith)

lemma sigmoid_zero : sigmoid 0 = 1 / 2 := by
  unfold sigmoid
  rw [neg_zero, Real.exp_zero]
  norm_num

/-- Monotonicity of the score as a function of the weighted combination. -/
lemma score_aux_mono {a b : ℚ} (h : a ≤ b) :
    pyRound (sigmoid (((a : ℝ) - 0.5) * 8) * 100) ≤
      pyRound (sigmoid (((b : ℝ) - 0.5) * 8) * 100) := by
  refine pyRound_mono (mul_le_mul_of_nonneg_right (sigmoid_mono ?_) (by norm_num))
  have : (a : ℝ) ≤ (b : ℝ) := by exact_mod_cast h
  linarith

/-- Unfolding of `score_difficulty` to its normal form. -/
lemma score_difficulty_eq (t p : ℚ) :
    score_difficulty t p =
      pyRound (sigmoid ((((t * 0.6 + p * 0.4 : ℚ) : ℝ) - 0.5) * 8) * 100) := rfl

/-- C2: for every `traffic_index` and `parking_pressure` in `[0,1]`,
`score_difficulty` returns an integer in `[0,100]` (the bounds hold even at
the extremes `(0,0)` and `(1,1)`). -/
theorem score_difficulty_bounds (t p : ℚ) (ht0 : 0 ≤ t) (ht1 : t ≤ 1)
    (hp0 : 0 ≤ p) (hp1 : p ≤ 1) :
    0 ≤ score_difficulty t p ∧ score_difficulty t p ≤ 100 := by
  rw [score_difficulty_eq]
  constructor
  · refine int_le_pyRound ?_
    have h := sigmoid_pos ((((t * 0.6 + p * 0.4 : ℚ) : ℝ) - 0.5) * 8)
    have hz : ((0 : ℤ) : ℝ) = 0 := by norm_num
    rw [hz]
    linarith
  · refine pyRound_le_int ?_
    have h := sigmoid_lt_one ((((t * 0.6 + p * 0.4 : ℚ) : ℝ) - 0.5) * 8)
    have hz : ((100 : ℤ) : ℝ) = 100 := by norm_num
    rw [hz]
    linarith

/-- Witness for C2 at the extreme inputs `(0,0)` and `(1,1)`. -/
theorem score_difficulty_bounds_witness :
    (0 ≤ score_difficulty 0 0 ∧ score_difficulty 0 0 ≤ 100) ∧
    (0 ≤ score_difficulty 1 1 ∧ score_difficulty 1 1 ≤ 100) :=
  ⟨score_difficulty_bounds 0 0 (by norm_num) (by norm_num) (by norm_num) (by norm_num),
   score_difficulty_bounds 1 1 (by norm_num) (by norm_num) (by norm_num) (by norm_num)⟩

/-- C3: `score_difficulty (0.5, 0.5) = 50` exactly: the weighted combination
is `0.5`, the sigmoid of `0` is exactly `1/2`, and rounding `50.0` gives
`50`. -/
theorem score_difficulty_center : score_difficulty 0.5 0.5 = 50 := by
  rw [score_difficulty_eq]
  have h1 : (((0.5 * 0.6 + 0.5 * 0.4 : ℚ) : ℝ) - 0.5) * 8 = 0 := by
    push_cast
    norm_num
  rw [h1, sigmoid_zero]
  have h2 : (1 / 2 : ℝ) * 100 = ((50 : ℤ) : ℝ) := by norm_num
  rw [h2, pyRound_intCast]

/-- C4: on `[0,1]²`, `score_difficulty` is monotone non-decreasing in each
argument separately. -/
theorem score_difficulty_monotone :
    (∀ t t' p : ℚ, 0 ≤ t → t ≤ 1 → 0 ≤ t' → t' ≤ 1 → 0 ≤ p → p ≤ 1 → t ≤ t' →
      score_difficulty t p ≤ score_difficulty t' p) ∧
    (∀ t p p' : ℚ, 0 ≤ t → t ≤ 1 → 0 ≤ p → p ≤ 1 → 0 ≤ p' → p' ≤ 1 → p ≤ p' →
      score_difficulty t p ≤ score_difficulty t p') := by
  constructor
  · intro t t' p _ _ _ _ _ _ h
    rw [score_difficulty_eq, score_difficulty_eq]
    exact score_aux_mono (by nlinarith)
  · intro t p p' _ _ _ _ _ _ h
    rw [score_difficulty_eq, score_difficulty_eq]
    exact score_aux_mono (by nlinarith)

/-- Witness for C4: one concrete increase in each coordinate. -/
theorem score_difficulty_monotone_witness :
    score_difficulty 0 (1 / 2) ≤ score_difficulty 1 (1 / 2) ∧
    score_difficulty (1 / 2) 0 ≤ score_difficulty (1 / 2) 1 :=
  ⟨score_difficulty_monotone.1 0 1 (1 / 2) (by norm_num) (by norm_num) (by norm_num)
      (by norm_num) (by norm_num) (by norm_num) (by norm_num),
   score_difficulty_monotone.2 (1 / 2) 0 1 (by norm_num) (by norm_num) (by norm_num)
      (by norm_num) (by norm_num) (by norm_num) (by norm_num)⟩

/-- C5: `level_from_score` is a total, non-overlapping four-way partition of
the integer scores in `[0,100]`, with boundaries `30`, `55`, `75` belonging
to the upper tier. -/
theorem level_from_score_partition :
    (∀ s : ℤ, 0 ≤ s → s ≤ 100 →
      ((level_from_score s = "EASY" ↔ s < 30) ∧
       (level_from_score s = "MODERATE" ↔ 30 ≤ s ∧ s < 55) ∧
       (level_from_score s = "HARD" ↔ 55 ≤ s ∧ s < 75) ∧
       (level_from_score s = "VERY_HARD" ↔ 75 ≤ s))) ∧
    level_from_score 30 = "MODERATE" ∧ level_from_score 55 = "HARD" ∧
    level_from_score 75 = "VERY_HARD" := by
  refine ⟨?_, rfl, rfl, rfl⟩
  intro s h0 h1
  unfold level_from_score
  split_ifs with h2 h3 h4
  · exact ⟨iff_of_true rfl h2, iff_of_false (by decide) (by omega),
      iff_of_false (by decide) (by omega), iff_of_false (by decide) (by omega)⟩
  · exact ⟨iff_of_false (by decide) (by omega), iff_of_true rfl (by omega),
      iff_of_false (by decide) (by omega), iff_of_false (by decide) (by omega)⟩
  · exact ⟨iff_of_false (by decide) (by omega), iff_of_false (by decide) (by omega),
      iff_of_true rfl (by omega), iff_of_false (by decide) (by omega)⟩
  · exact ⟨iff_of_false (by decide) (by omega), iff_of_false (by decide) (by omega),
      iff_of_false (by decide) (by omega), iff_of_true rfl (by omega)⟩

/-- Witness for C5 at the concrete score `42`. -/
theorem level_from_score_partition_witness : level_from_score 42 = "MODERATE" :=
  ((level_from_score_partition.1 42 (by norm_num) (by norm_num)).2.1).mpr (by omega)

/-! Clamp helpers. -/

lemma clamp01_nonneg (x : ℚ) : 0 ≤ max 0.0 (min 1.0 x) :=
  le_max_of_le_left (by norm_num)

lemma clamp01_le_one (x : ℚ) : max 0.0 (min 1.0 x) ≤ 1 :=
  max_le (by norm_num) (le_trans (min_le_left _ _) (by norm_num))

/-- C1: on its documented domain (`hour < 24`, `weekday < 7`,
`base_popularity ∈ [0,1]`, `n1 ∈ [-0.1,0.1]`, `n2 ∈ [0,0.15]`),
`get_realtime_features` produces exactly the pair described by the
specification: clamped noisy step-function traffic (popularity-weighted,
weekend-boosted) and the derived parking pressure. -/
theorem get_realtime_features_matches_spec (hour weekday : ℕ) (pop n1 n2 : ℚ)
    (hh : hour < 24) (hw : weekday < 7) (hp0 : 0 ≤ pop) (hp1 : pop ≤ 1)
    (h1a : -0.1 ≤ n1) (h1b : n1 ≤ 0.1) (h2a : 0 ≤ n2) (h2b : n2 ≤ 0.15) :
    get_realtime_features hour weekday pop n1 n2 = featuresSpec hour weekday pop n1 n2 := by
  simp only [get_realtime_features, featuresSpec]
  by_cases h : 5 ≤ weekday
  · have h2 : weekday = 5 ∨ weekday = 6 := by omega
    rw [if_pos h, if_pos h2]
  · have h2 : ¬(weekday = 5 ∨ weekday = 6) := by omega
    rw [if_neg h, if_neg h2]

/-- Witness for C1 at Saturday 15:00 for the hanok popularity `0.85`. -/
theorem get_realtime_features_matches_spec_witness :
    ((15 : ℕ) < 24 ∧ (6 : ℕ) < 7 ∧ (0 : ℚ) ≤ 0.85 ∧ (0.85 : ℚ) ≤ 1 ∧
      (-0.1 : ℚ) ≤ -0.05 ∧ (-0.05 : ℚ) ≤ 0.1 ∧ (0 : ℚ) ≤ 0.1 ∧ (0.1 : ℚ) ≤ 0.15) ∧
    get_realtime_features 15 6 0.85 (-0.05) 0.1 = featuresSpec 15 6 0.85 (-0.05) 0.1 :=
  ⟨by norm_num,
   get_realtime_features_matches_spec 15 6 0.85 (-0.05) 0.1 (by norm_num) (by norm_num)
     (by norm_num) (by norm_num) (by norm_num) (by norm_num) (by norm_num) (by norm_num)⟩

/-- C6: `forecast_30min` equals the clamp of current value plus the
specification trend table plus noise, and its result always lies in
`[0,1]`. -/
theorem forecast_30min_spec_and_bounds (t : ℚ) (hour : ℕ) (n : ℚ)
    (ht0 : 0 ≤ t) (ht1 : t ≤ 1) (hn0 : -0.05 ≤ n) (hn1 : n ≤ 0.05) :
    forecast_30min t hour n = max 0.0 (min 1.0 (t + trendSpec hour + n)) ∧
    0 ≤ forecast_30min t hour n ∧ forecast_30min t hour n ≤ 1 := by
  refine ⟨?_, ?_, ?_⟩
  · simp only [forecast_30min, trendSpec]
  · simp only [forecast_30min]
    exact clamp01_nonneg _
  · simp only [forecast_30min]
    exact clamp01_le_one _

/-- Witness for C6 at `t = 0.5`, noon hour `12`, noise `0.05`. -/
theorem forecast_30min_spec_and_bounds_witness :
    ((0 : ℚ) ≤ 0.5 ∧ (0.5 : ℚ) ≤ 1 ∧ (-0.05 : ℚ) ≤ 0.05 ∧ (0.05 : ℚ) ≤ 0.05) ∧
    forecast_30min 0.5 12 0.05 = max 0.0 (min 1.0 ((0.5 : ℚ) + trendSpec 12 + 0.05)) ∧
    0 ≤ forecast_30min 0.5 12 0.05 ∧ forecast_30min 0.5 12 0.05 ≤ 1 :=
  ⟨by norm_num,
   forecast_30min_spec_and_bounds 0.5 12 0.05 (by norm_num) (by norm_num)
     (by norm_num) (by norm_num)⟩

/-- C7: the `+30m` parking pressure of `GET /api/status` equals
`current × 0.9 + noise` and, for current pressure in `[0,1]` and noise in
`[0,0.1]`, coincides with its clamp to `[0,1]` and lies in `[0,1]`. -/
theorem parking_30m_spec_and_bounds (p u : ℚ) (hp0 : 0 ≤ p) (hp1 : p ≤ 1)
    (hu0 : 0 ≤ u) (hu1 : u ≤ 0.1) :
    parking_pressure_30m p u = max 0 (min 1 (p * 0.9 + u)) ∧
    0 ≤ parking_pressure_30m p u ∧ parking_pressure_30m p u ≤ 1 := by
  have h0 : 0 ≤ p * 0.9 + u := by nlinarith
  have h1 : p * 0.9 + u ≤ 1 := by nlinarith
  unfold parking_pressure_30m
  refine ⟨?_, h0, h1⟩
  rw [min_eq_right h1, max_eq_right h0]

/-- Witness for C7 at the extreme `p = 1`, `u = 0.1` (value exactly `1`). -/
theorem parking_30m_spec_and_bounds_witness :
    ((0 : ℚ) ≤ 1 ∧ (1 : ℚ) ≤ 1 ∧ (0 : ℚ) ≤ 0.1 ∧ (0.1 : ℚ) ≤ 0.1) ∧
    parking_pressure_30m 1 0.1 = max 0 (min 1 ((1 : ℚ) * 0.9 + 0.1)) ∧
    0 ≤ parking_pressure_30m 1 0.1 ∧ parking_pressure_30m 1 0.1 ≤ 1 :=
  ⟨by norm_num,
   parking_30m_spec_and_bounds 1 0.1 (by norm_num) (by norm_num) (by norm_num)
     (by norm_num)⟩

/-- C8: two feature-generation calls for the same location id with the same
hour and the same 5-minute bucket (`minute / 5`) produce identical traffic
and parking values: the noise seed depends only on
`(area_id, hour, minute / 5)`. -/
theorem features_deterministic_in_bucket (hashFn : String → ℤ) (noise : ℤ → ℚ × ℚ)
    (area_id : String) (hour weekday m1 m2 : ℕ) (hb : m1 / 5 = m2 / 5) :
    features_of_area hashFn noise area_id hour weekday m1 =
      features_of_area hashFn noise area_id hour weekday m2 := by
  unfold features_of_area seed_string
  rw [hb]

/-- Witness for C8: minutes `7` and `9` share the bucket `1`. -/
theorem features_deterministic_in_bucket_witness :
    (7 : ℕ) / 5 = (9 : ℕ) / 5 ∧
    features_of_area (fun _ => 0) (fun _ => (0, 0)) "jeonju-hanok" 15 5 7 =
      features_of_area (fun _ => 0) (fun _ => (0, 0)) "jeonju-hanok" 15 5 9 :=
  ⟨by norm_num,
   features_deterministic_in_bucket (fun _ => 0) (fun _ => (0, 0)) "jeonju-hanok" 15 5 7 9
     (by norm_num)⟩

/-- C9: for an area id absent from the catalog, `get_status` returns the
in-band error payload (an error string together with the list of valid ids,
not the assessment payload), and that list carries every catalog id exactly
once: it is exactly the map of ids, without duplicates, and every catalog
entry's id is in it. -/
theorem unknown_area_error_payload (hashFn : String → ℤ) (noise : ℤ → ℚ × ℚ)
    (fnoise pnoise : ℚ) (hour weekday minute : ℕ) (now_kst area : String)
    (hmiss : lookupArea area = none) :
    get_status hashFn noise fnoise pnoise hour weekday minute now_kst area =
      StatusResponse.error "지역을 찾을 수 없습니다." (AREAS.map (fun a => a.id)) ∧
    (AREAS.map (fun a => a.id)).Nodup ∧
    ∀ a ∈ AREAS, a.id ∈ AREAS.map (fun a => a.id) := by
  refine ⟨?_, by decide, ?_⟩
  · unfold get_status
    rw [hmiss]
  · intro a ha
    exact List.mem_map_of_mem _ ha

/-- Witness for C9 at the unknown id `"nowhere"`. -/
theorem unknown_area_error_payload_witness :
    lookupArea "nowhere" = none ∧
    get_status (fun _ => 0) (fun _ => (0, 0)) 0 0 15 5 7 "2026-10-12T15:00:00+09:00" "nowhere" =
      StatusResponse.error "지역을 찾을 수 없습니다." (AREAS.map (fun a => a.id)) :=
  ⟨rfl,
   (unknown_area_error_payload (fun _ => 0) (fun _ => (0, 0)) 0 0 15 5 7
     "2026-10-12T15:00:00+09:00" "nowhere" rfl).1⟩

/-- C10: for an area id absent from the catalog, `get_realtime_features`
neither fails nor signals absence: it falls back to the `jeonju-hanok`
entry's `base_popularity = 0.85`, while the noise seed is still derived from
the unknown id itself. -/
theorem unknown_area_fallback_hanok (hashFn : String → ℤ) (noise : ℤ → ℚ × ℚ)
    (area_id : String) (hour weekday minute : ℕ)
    (hmiss : lookupArea area_id = none) :
    features_of_area hashFn noise area_id hour weekday minute =
      get_realtime_features hour weekday jeonjuHanok.base_popularity
        (noise (hashFn (seed_string area_id hour minute))).1
        (noise (hashFn (seed_string area_id hour minute))).2 ∧
    jeonjuHanok.base_popularity = 0.85 := by
  refine ⟨?_, rfl⟩
  unfold features_of_area
  rw [hmiss]
  rfl

/-- Witness for C10 at the unknown id `"nowhere"`. -/
theorem unknown_area_fallback_hanok_witness :
    lookupArea "nowhere" = none ∧
    (features_of_area (fun _ => 1) (fun _ => (0, 0)) "nowhere" 15 5 7 =
      get_realtime_features 15 5 jeonjuHanok.base_popularity 0 0 ∧
     jeonjuHanok.base_popularity = 0.85) :=
  ⟨rfl, unknown_area_fallback_hanok (fun _ => 1) (fun _ => (0, 0)) "nowhere" 15 5 7 rfl⟩
